import Mathlib

/-!
Verification of the shelf-sync-backend authorization and data-access model.

The development shallowly embeds the row-level-security (RLS) policies of the
SQL migrations and the data-mutating handlers of the React components.  Tables
become lists of rows; an RLS policy becomes a Boolean predicate over
(role store, actor id, row); a client handler becomes a pure function from its
inputs (and the collaborator responses it observes) to the resulting store and
the list of data-tier calls it performs.  Database-generated columns that no
claim depends on (surrogate ids of role rows, created_at timestamps) are
omitted from the row structures.
-/

namespace ShelfSync

/-- An opaque authenticated-user identifier (a uuid from the identity
provider), compared only for equality. -/
abbrev Uid := String

/-- The values of the app_role enum from migration 20251108:
CREATE TYPE public.app_role AS ENUM ('student', 'teacher', 'admin'). -/
def appRoleValues : List String := ["student", "teacher", "admin"]

/-- A row of public.user_roles (migration 20251108).  The role column is typed
app_role; the surrogate id and created_at columns are omitted. -/
structure RoleRow where
  user_id : Uid
  role : String
deriving DecidableEq, Repr

/-- A row of public.profiles (migration 20251108); created_at and updated_at
omitted. -/
structure Profile where
  user_id : Uid
  full_name : String
  email : String
  phone : Option String
  institution : Option String
deriving DecidableEq, Repr

/-- A row of public.books (books migration); upload_date omitted. -/
structure Book where
  id : String
  title : String
  author : Option String
  description : Option String
  category : Option String
  isbn : Option String
  file_name : String
  file_path : String
  file_size : Option Nat
  uploaded_by : Option Uid
deriving DecidableEq, Repr

/-- A row of public.messages (migration 20251109); the surrogate id and
created_at are omitted. -/
structure Message where
  sender_id : Uid
  recipient_id : Uid
  book_id : Option String
  subject : String
  content : String
  is_read : Bool
deriving DecidableEq, Repr

/-- A row of public.reviews, as inserted by ReviewsView.handleSubmit:
book_id, user_id, rating, review_text. -/
structure Review where
  book_id : String
  user_id : Uid
  rating : Nat
  review_text : Option String
deriving DecidableEq, Repr

/-- The function public.has_role(_user_id, _role) from migration 20251108:
SELECT EXISTS (SELECT 1 FROM user_roles WHERE user_id = _user_id AND
role = _role). -/
def has_role (store : List RoleRow) (uid : Uid) (r : String) : Bool :=
  store.any fun row => row.user_id == uid && row.role == r

/-! ### Messages: RLS select and update policies (migration 20251109) -/

/-- Policy "Users can view their messages": USING (auth.uid() = sender_id OR
auth.uid() = recipient_id). -/
def usersCanViewTheirMessages (uid : Uid) (m : Message) : Bool :=
  uid == m.sender_id || uid == m.recipient_id

/-- Policy "Admins can view all messages": USING (has_role(auth.uid(),
'admin')). -/
def adminsCanViewAllMessages (store : List RoleRow) (uid : Uid) : Bool :=
  has_role store uid "admin"

/-- RLS select on messages: permissive policies are combined with OR; the two
select policies above are the only ones on public.messages. -/
def canSelectMessage (store : List RoleRow) (uid : Uid) (m : Message) : Bool :=
  usersCanViewTheirMessages uid m || adminsCanViewAllMessages store uid

/-- Policy "Users can send messages": WITH CHECK (auth.uid() = sender_id). -/
def canInsertMessage (uid : Uid) (m : Message) : Bool :=
  uid == m.sender_id

/-- Policy "Users can update received messages": USING (auth.uid() =
recipient_id).  No WITH CHECK clause is given, so the USING expression is
applied to the updated row as well; no other column of the row is
constrained. -/
def canUpdateMessage (uid : Uid) (mOld mNew : Message) : Bool :=
  (uid == mOld.recipient_id) && (uid == mNew.recipient_id)

/-- MessagesView.markAsRead: update({ is_read: true }) on the clicked
message. -/
def markAsRead (m : Message) : Message :=
  { m with is_read := true }

/-! ### Books: RLS delete policy -/

/-- Policy "Users can delete their own books", final version: the books
migration created it as USING (auth.uid() = uploaded_by); migration 20251108
drops that version and recreates the policy as USING (auth.uid() = uploaded_by
OR has_role(auth.uid(), 'admin')). -/
def usersCanDeleteTheirOwnBooks (store : List RoleRow) (uid : Uid) (b : Book) : Bool :=
  (b.uploaded_by == some uid) || has_role store uid "admin"

/-- RLS delete on books: the recreated policy is the only delete policy. -/
def canDeleteBook (store : List RoleRow) (uid : Uid) (b : Book) : Bool :=
  usersCanDeleteTheirOwnBooks store uid b

/-! ### Claims C1 and C2: select/delete authorization -/

/-- C1: an actor can select a message M if and only if it is M's sender, M's
recipient, or holds the admin role; no other actor can read M. -/
theorem C1_message_select_iff (store : List RoleRow) (uid : Uid) (m : Message) :
    canSelectMessage store uid m = true ↔
      uid = m.sender_id ∨ uid = m.recipient_id ∨ has_role store uid "admin" = true := by
  simp [canSelectMessage, usersCanViewTheirMessages, adminsCanViewAllMessages,
    Bool.or_eq_true, or_assoc]

/-- C2: the delete operation on a book B is allowed to an actor exactly when
the actor is B's uploader or holds the admin role. -/
theorem C2_book_delete_iff (store : List RoleRow) (uid : Uid) (b : Book) :
    canDeleteBook store uid b = true ↔
      b.uploaded_by = some uid ∨ has_role store uid "admin" = true := by
  simp [canDeleteBook, usersCanDeleteTheirOwnBooks, Bool.or_eq_true]

/-! ### Role assignment on signup (migration 20251110, AuthModal.tsx) -/

/-- Errors raised by the relational store that the embedded code
distinguishes. -/
inductive SqlError
  | invalidEnumValue (v : String)
  | uniqueViolation
  | rlsViolation
deriving DecidableEq, Repr

/-- An INSERT into public.user_roles as executed by the storage engine: the
role column is typed app_role, so a value outside the enum raises an
invalid-enum-value error; UNIQUE (user_id, role) raises unique_violation on a
duplicate pair. -/
def insertRoleRow (store : List RoleRow) (row : RoleRow) : Except SqlError (List RoleRow) :=
  if appRoleValues.contains row.role then
    if store.any (fun r => r.user_id == row.user_id && r.role == row.role) then
      Except.error SqlError.uniqueViolation
    else
      Except.ok (store ++ [row])
  else
    Except.error (SqlError.invalidEnumValue row.role)

/-- The trigger function public.handle_new_user_role (migration 20251110):
INSERT INTO user_roles (user_id, role) VALUES (NEW.user_id, 'user');
RETURN NEW; EXCEPTION WHEN unique_violation THEN RETURN NEW.  Only
unique_violation is caught; any other error propagates. -/
def handle_new_user_role (store : List RoleRow) (new_user_id : Uid) :
    Except SqlError (List RoleRow) :=
  match insertRoleRow store ⟨new_user_id, "user"⟩ with
  | Except.ok store1 => Except.ok store1
  | Except.error SqlError.uniqueViolation => Except.ok store
  | Except.error e => Except.error e

/-- The stores touched by signup. -/
structure SignupState where
  profiles : List Profile
  user_roles : List RoleRow
deriving DecidableEq, Repr

/-- An INSERT into public.profiles.  Trigger on_profile_created_assign_role
(AFTER INSERT FOR EACH ROW) executes handle_new_user_role; an uncaught error
in the trigger aborts the inserting statement. -/
def createProfile (s : SignupState) (p : Profile) : Except SqlError SignupState :=
  match handle_new_user_role s.user_roles p.user_id with
  | Except.ok store1 => Except.ok ⟨s.profiles ++ [p], store1⟩
  | Except.error e => Except.error e

/-! ### Claim C3: the signup trigger -/

/-- C3 (code evaluated at the failing input): the trigger fired by profile
creation never assigns any role, let alone the one chosen at signup.  The
value 'user' it inserts is not in the app_role enum, the resulting
invalid-enum-value error is not the unique_violation the trigger catches, and
the profile insert itself aborts, for every prior state and every new
profile. -/
theorem C3_trigger_inserts_invalid_role (s : SignupState) (p : Profile) :
    appRoleValues.contains "user" = false ∧
      createProfile s p = Except.error (SqlError.invalidEnumValue "user") := by
  constructor
  · rfl
  · simp [createProfile, handle_new_user_role, insertRoleRow, appRoleValues]

/-! ### Claim C4: message immutability -/

/-- A concrete stored message used to exhibit what the update policy
admits. -/
def msgBefore : Message :=
  ⟨"sender-1", "recipient-1", none, "Question about Algebra I", "Hi there", false⟩

/-- The same row with its subject rewritten, recipient unchanged. -/
def msgTampered : Message :=
  { msgBefore with subject := "Forged subject" }

/-- C4 counterexample: the claim says no actor, the recipient included, can
modify a message's subject; but the update policy on messages checks only
that the actor is the recipient of the old and the new row, so it allows the
recipient to rewrite the subject. -/
theorem C4_counterexample :
    canUpdateMessage "recipient-1" msgBefore msgTampered = true ∧
      msgTampered.subject ≠ msgBefore.subject := by
  constructor
  · rfl
  · simp [msgTampered, msgBefore]

/-- C4 (amended): only the recipient may update a message row (the policy
constrains the old and the new row to have the actor as recipient), the data
tier does not constrain which other columns change, and the application's
only update path, markAsRead, sets is_read to true and leaves every other
field unchanged. -/
theorem C4_message_update (uid : Uid) (mOld mNew m : Message) :
    (canUpdateMessage uid mOld mNew = true ↔
        uid = mOld.recipient_id ∧ uid = mNew.recipient_id) ∧
      (markAsRead m).is_read = true ∧
      (markAsRead m).sender_id = m.sender_id ∧
      (markAsRead m).recipient_id = m.recipient_id ∧
      (markAsRead m).book_id = m.book_id ∧
      (markAsRead m).subject = m.subject ∧
      (markAsRead m).content = m.content := by
  refine ⟨?_, rfl, rfl, rfl, rfl, rfl, rfl⟩
  simp [canUpdateMessage, Bool.and_eq_true]

/-! ### Admin role management (AdminRolesPanel.tsx) -/

/-- Modelled from the spec: the migration files under src contain no INSERT or
DELETE policy on public.user_roles (the src migration set is incomplete: the
reviews table DDL used by ReviewsView is likewise absent), while spec section
4.2 makes every role transition available to actors holding the admin role at
the data tier.  Role-row writes are therefore modelled as allowed exactly to
admin actors. -/
def roleWriteAllowed (store : List RoleRow) (actor : Uid) : Bool :=
  has_role store actor "admin"

/-- DELETE on user_roles filtered by user_id = target, as the data platform
runs it: rows the policy does not grant are invisible to the statement and
simply survive; a denied delete reports no error. -/
def dataDeleteUserRoles (store : List RoleRow) (actor target : Uid) : List RoleRow :=
  if roleWriteAllowed store actor then
    store.filter fun r => !(r.user_id == target)
  else
    store

/-- INSERT on user_roles as the data platform runs it: a row the policy does
not grant raises a row-level-security violation; otherwise the enum and
uniqueness checks of insertRoleRow apply. -/
def dataInsertUserRole (store : List RoleRow) (actor : Uid) (row : RoleRow) :
    List RoleRow × Option SqlError :=
  if roleWriteAllowed store actor then
    match insertRoleRow store row with
    | Except.ok store1 => (store1, none)
    | Except.error e => (store, some e)
  else
    (store, some SqlError.rlsViolation)

/-- A data-tier call issued by AdminRolesPanel.updateUserRole. -/
inductive RoleCall
  | deleteRoles (target : Uid)
  | insertRole (target : Uid) (role : String)
deriving DecidableEq, Repr

/-- Outcome of one AdminRolesPanel.updateUserRole invocation: the resulting
role store, the data-tier calls issued, and whether the panel reported
success. -/
structure PanelResult where
  store : List RoleRow
  calls : List RoleCall
  ok : Bool
deriving DecidableEq, Repr

/-- AdminRolesPanel.updateUserRole: if the target is the current user, show
an error and return before any data-tier call; otherwise delete the target's
existing role rows (response unchecked) and insert the new role, reporting
success exactly when the insert returns no error. -/
def updateUserRole (store : List RoleRow) (currentUserId userId : Uid)
    (newRole : String) : PanelResult :=
  if userId == currentUserId then
    ⟨store, [], false⟩
  else
    let store1 := dataDeleteUserRoles store currentUserId userId
    let res := dataInsertUserRole store1 currentUserId ⟨userId, newRole⟩
    ⟨res.1, [RoleCall.deleteRoles userId, RoleCall.insertRole userId newRole], res.2.isNone⟩

/-- Filtering away a user's rows preserves any other user's role
membership. -/
lemma has_role_filter_of_ne (store : List RoleRow) (actor target : Uid) (r : String)
    (h : has_role store actor r = true) (hne : actor ≠ target) :
    has_role (store.filter fun row => !(row.user_id == target)) actor r = true := by
  simp only [has_role, List.any_eq_true, List.mem_filter, Bool.and_eq_true,
    beq_iff_eq, Bool.not_eq_true', beq_eq_false_iff_ne] at h ⊢
  obtain ⟨row, hmem, h1, h2⟩ := h
  exact ⟨row, ⟨hmem, h1 ▸ hne⟩, h1, h2⟩

/-- After the target's rows are filtered away, no row of the store matches
the target again. -/
lemma any_target_after_remove (store : List RoleRow) (target : Uid) (r : String) :
    (store.filter fun row => !(row.user_id == target)).any
      (fun row => row.user_id == target && row.role == r) = false := by
  simp only [List.any_eq_false, List.mem_filter, Bool.not_eq_true',
    beq_eq_false_iff_ne, Bool.and_eq_true, beq_iff_eq, not_and, and_imp]
  intro row _ hne h
  exact absurd h hne

/-- After the target's rows are filtered away, selecting the target's rows
yields nothing. -/
lemma select_target_after_remove (store : List RoleRow) (target : Uid) :
    (store.filter fun row => !(row.user_id == target)).filter
      (fun row => row.user_id == target) = [] := by
  simp only [List.filter_eq_nil_iff, List.mem_filter, Bool.not_eq_true',
    beq_eq_false_iff_ne, beq_iff_eq, and_imp]
  intro row _ hne
  exact hne

/-! ### Claims C6 and C7: role reassignment -/

/-- C6: a role-reassignment attempt whose target is the acting admin is
rejected with an error before any data-tier call, leaving the role store
unchanged. -/
theorem C6_self_reassignment_rejected (store : List RoleRow) (me : Uid)
    (newRole : String) :
    updateUserRole store me me newRole = ⟨store, [], false⟩ := by
  simp [updateUserRole]

/-- C7: an admin reassigning a different user from student to teacher
proceeds as delete-then-insert (not update) and leaves exactly one role row
for that user, with value teacher. -/
theorem C7_admin_reassignment (store : List RoleRow) (adminId target : Uid)
    (hne : target ≠ adminId) (hadmin : has_role store adminId "admin" = true) :
    (updateUserRole store adminId target "teacher").calls =
        [RoleCall.deleteRoles target, RoleCall.insertRole target "teacher"] ∧
      (updateUserRole store adminId target "teacher").store.filter
        (fun r => r.user_id == target) = [⟨target, "teacher"⟩] ∧
      (updateUserRole store adminId target "teacher").ok = true := by
  have hguard : (target == adminId) = false := beq_eq_false_iff_ne.mpr hne
  have hallow1 : roleWriteAllowed store adminId = true := hadmin
  have hallow2 : roleWriteAllowed
      (store.filter fun row => !(row.user_id == target)) adminId = true :=
    has_role_filter_of_ne store adminId target "admin" hadmin (Ne.symm hne)
  have hins : insertRoleRow (store.filter fun row => !(row.user_id == target))
      ⟨target, "teacher"⟩ =
      Except.ok ((store.filter fun row => !(row.user_id == target)) ++ [⟨target, "teacher"⟩]) := by
    simp only [insertRoleRow, appRoleValues]
    simp only [any_target_after_remove]
    simp
  have hrun : updateUserRole store adminId target "teacher" =
      ⟨(store.filter fun row => !(row.user_id == target)) ++ [⟨target, "teacher"⟩],
        [RoleCall.deleteRoles target, RoleCall.insertRole target "teacher"], true⟩ := by
    simp [updateUserRole, hguard, dataDeleteUserRoles, hallow1, hallow2,
      dataInsertUserRole, hins]
  have hsel : ((store.filter fun row => !(row.user_id == target)) ++
        [(⟨target, "teacher"⟩ : RoleRow)]).filter
      (fun r => r.user_id == target) = [⟨target, "teacher"⟩] := by
    rw [List.filter_append, select_target_after_remove]
    simp
  refine ⟨by rw [hrun], ?_, by rw [hrun]⟩
  rw [hrun]
  exact hsel

/-- A concrete role store with one admin and one student. -/
def storeC7 : List RoleRow := [⟨"admin-1", "admin"⟩, ⟨"user-7", "student"⟩]

/-- C7 at a concrete input: admin-1 reassigns user-7 from student to
teacher. -/
theorem C7_witness :
    ("user-7" : Uid) ≠ "admin-1" ∧
      has_role storeC7 "admin-1" "admin" = true ∧
      (updateUserRole storeC7 "admin-1" "user-7" "teacher").calls =
        [RoleCall.deleteRoles "user-7", RoleCall.insertRole "user-7" "teacher"] ∧
      (updateUserRole storeC7 "admin-1" "user-7" "teacher").store.filter
        (fun r => r.user_id == "user-7") = [⟨"user-7", "teacher"⟩] ∧
      (updateUserRole storeC7 "admin-1" "user-7" "teacher").ok = true := by
  have h := C7_admin_reassignment storeC7 "admin-1" "user-7" (by decide) (by decide)
  exact ⟨by decide, by decide, h.1, h.2.1, h.2.2⟩

/-! ### Executable string helpers

The client code uses the JavaScript string methods trim, toLowerCase and the
storage side splits object names on the slash.  The embeddings below compute
the same functions over the character list of a Lean string (the inputs here
are ASCII), by structural recursion so that concrete instances evaluate. -/

/-- The whitespace characters relevant to the trimmed inputs. -/
def isSpaceChar (c : Char) : Bool :=
  c == ' ' || c == '\t' || c == '\n' || c == '\r'

/-- Embedding of JavaScript trim: drop whitespace from both ends. -/
def trimStr (s : String) : String :=
  String.mk (((s.data.dropWhile isSpaceChar).reverse.dropWhile isSpaceChar).reverse)

/-- Lower-case one ASCII character. -/
def lowerChar (c : Char) : Char :=
  if 'A' ≤ c && c ≤ 'Z' then Char.ofNat (c.toNat + 32) else c

/-- Embedding of JavaScript toLowerCase for ASCII strings. -/
def lowerStr (s : String) : String :=
  String.mk (s.data.map lowerChar)

/-- Split a character list at every occurrence of a separator. -/
def splitChars (sep : Char) : List Char → List (List Char)
  | [] => [[]]
  | c :: cs =>
    let rest := splitChars sep cs
    if c == sep then [] :: rest
    else
      match rest with
      | [] => [[c]]
      | r :: rs => (c :: r) :: rs

/-- Split an object name on the slash, as string_to_array(name, '/') does. -/
def splitOnSlash (s : String) : List String :=
  (splitChars '/' s.data).map String.mk

/-! ### Book deletion control flow (BooksView, BookList, AdminBooksView) -/

/-- A collaborator call issued while deleting a book. -/
inductive BooksCall
  | storageRemove (path : String)
  | dbDelete (id : String)
deriving DecidableEq, Repr

/-- Outcome of one handleDelete invocation: the collaborator calls issued in
order, and whether the handler reported success. -/
structure ClientRun where
  calls : List BooksCall
  ok : Bool
deriving DecidableEq, Repr

/-- handleDelete as written identically in BooksView, BookList and
AdminBooksView, over the collaborator responses it observes: call
storage.remove on the file path first; a storage error throws before the
database delete; otherwise delete the metadata row and report success exactly
when neither call errored. -/
def handleDelete (storageErr dbErr : Option String) (b : Book) : ClientRun :=
  match storageErr with
  | some _ => ⟨[BooksCall.storageRemove b.file_path], false⟩
  | none =>
    match dbErr with
    | some _ => ⟨[BooksCall.storageRemove b.file_path, BooksCall.dbDelete b.id], false⟩
    | none => ⟨[BooksCall.storageRemove b.file_path, BooksCall.dbDelete b.id], true⟩

/-! ### Claim C8: blob before row -/

/-- C8: the blob removal is always the first call; the metadata row is
deleted only when blob removal succeeded; and when blob removal fails, the
handler stops with an error and never touches the row. -/
theorem C8_blob_removed_first (storageErr dbErr : Option String) (b : Book) :
    (handleDelete storageErr dbErr b).calls.head? =
        some (BooksCall.storageRemove b.file_path) ∧
      (BooksCall.dbDelete b.id ∈ (handleDelete storageErr dbErr b).calls →
        storageErr = none) ∧
      (storageErr.isSome = true →
        (handleDelete storageErr dbErr b).calls = [BooksCall.storageRemove b.file_path] ∧
          (handleDelete storageErr dbErr b).ok = false) := by
  cases storageErr <;> cases dbErr <;> simp [handleDelete]

/-- A concrete uploaded book. -/
def bookW : Book :=
  ⟨"book-1", "Algebra I", some "Author A", none, none, none, "algebra.pdf",
    "u1/1700000000.pdf", some 1024, some "u1"⟩

/-- C8 at a concrete input: a failing blob removal leaves the metadata row
untouched, and a full run deletes the row only after the blob. -/
theorem C8_witness :
    (some "network down" : Option String).isSome = true ∧
      (handleDelete (some "network down") none bookW).calls =
        [BooksCall.storageRemove bookW.file_path] ∧
      (handleDelete (some "network down") none bookW).ok = false ∧
      (none : Option String) = none := by
  have h := (C8_blob_removed_first (some "network down") none bookW).2.2 rfl
  exact ⟨rfl, h.1, h.2,
    (C8_blob_removed_first none none bookW).2.1 (by decide)⟩

/-! ### Denied deletes at the data tier (claim C5) -/

/-- Storage policy "Users can delete their own book files" (books migration):
bucket_id = 'books' AND auth.uid()::text = (storage.foldername(name))[1].
The object name is split on '/' and the final segment (the file name) is not
part of the folder path. -/
def canDeleteBookObject (uid : Uid) (path : String) : Bool :=
  (splitOnSlash path).dropLast.head? == some uid

/-- The platform-side stores a book deletion touches. -/
structure CatalogState where
  user_roles : List RoleRow
  books : List Book
  blobs : List String
deriving DecidableEq, Repr

/-- storage.remove as the platform runs it: objects the delete policy does
not grant are invisible to the statement and survive; a denied removal
reports no error. -/
def storageRemoveRun (blobs : List String) (uid : Uid) (path : String) : List String :=
  blobs.filter fun p => !(p == path && canDeleteBookObject uid p)

/-- DELETE FROM books WHERE id = bookId as the platform runs it: rows the
delete policy does not grant are invisible and survive; a denied delete
reports no error. -/
def dataDeleteBookRun (s : CatalogState) (uid : Uid) (bookId : String) : CatalogState :=
  { s with books := s.books.filter fun b => !(b.id == bookId && canDeleteBook s.user_roles uid b) }

/-- Outcome of one handleDelete run against the platform: the resulting
stores and the toast the user sees. -/
structure DeleteRunOutcome where
  state : CatalogState
  toast : String
deriving DecidableEq, Repr

/-- BooksView.handleDelete composed with the platform semantics above:
since neither tier reports an error for a policy denial, the handler reaches
its success toast no matter what the policies decided. -/
def handleDeleteRun (s : CatalogState) (uid : Uid) (b : Book) : DeleteRunOutcome :=
  let blobs1 := storageRemoveRun s.blobs uid b.file_path
  let s1 := dataDeleteBookRun { s with blobs := blobs1 } uid b.id
  ⟨s1, "Book deleted successfully"⟩

/-- A concrete book uploaded by u1. -/
def bookC5 : Book :=
  ⟨"book-5", "Linear Algebra", none, none, none, none, "la.pdf",
    "u1/500.pdf", none, some "u1"⟩

/-- A catalog holding that book, its blob, and a non-admin actor u2. -/
def stateC5 : CatalogState :=
  ⟨[⟨"u2", "student"⟩], [bookC5], ["u1/500.pdf"]⟩

/-- C5 (code evaluated at the failing input): both delete policies deny u2,
yet the run leaves every store unchanged and still reports the success toast;
the caller observes no authorization error at all. -/
theorem C5_denied_delete_reports_success :
    canDeleteBook stateC5.user_roles "u2" bookC5 = false ∧
      canDeleteBookObject "u2" bookC5.file_path = false ∧
      handleDeleteRun stateC5 "u2" bookC5 = ⟨stateC5, "Book deleted successfully"⟩ := by
  decide

/-! ### Review submission (ReviewsView.tsx, claim C9) -/

/-- The star values rendered by ReviewsView.renderStars; the click handler of
star s sets the rating state to s. -/
def starValues : List Nat := [1, 2, 3, 4, 5]

/-- The rating state after a sequence of star clicks, starting from the
initial useState value 5; each click overwrites the rating with the clicked
star. -/
def ratingAfter (clicks : List Nat) : Nat :=
  clicks.foldl (fun _ star => star) 5

/-- Outcome of one ReviewsView.handleSubmit invocation. -/
structure ReviewSubmit where
  reviews : List Review
  ok : Bool
deriving DecidableEq, Repr

/-- ReviewsView.handleSubmit: reject when no book is selected or no user is
logged in; otherwise insert the review row exactly as built, with no check on
the rating.  Modelled from the spec: the reviews data tier (whose DDL is not
under src) is unguarded, with no rating range constraint, so the insert goes
through unconditionally. -/
def handleSubmit (user : Option Uid) (selectedBook : String) (rating : Nat)
    (reviewText : String) (reviews : List Review) : ReviewSubmit :=
  if selectedBook == "" then ⟨reviews, false⟩
  else
    match user with
    | none => ⟨reviews, false⟩
    | some uid =>
      ⟨reviews ++ [⟨selectedBook, uid, rating,
        if trimStr reviewText == "" then none else some (trimStr reviewText)⟩], true⟩

/-- C9 counterexample: a submission whose rating is 7, outside the range
1 to 5, is not rejected; it succeeds and creates the review row. -/
theorem C9_counterexample :
    ¬(1 ≤ 7 ∧ 7 ≤ 5) ∧
      (handleSubmit (some "u1") "book-1" 7 "out of range" []).ok = true ∧
      (handleSubmit (some "u1") "book-1" 7 "out of range" []).reviews =
        [⟨"book-1", "u1", 7, some "out of range"⟩] := by
  decide

/-- Whatever the click sequence, a rating that starts in the range 1 to 5 and
is overwritten only with rendered star values stays in that range. -/
lemma ratingFold_mem_range (clicks : List Nat) (r : Nat)
    (h : ∀ c ∈ clicks, c ∈ starValues) (hr : 1 ≤ r ∧ r ≤ 5) :
    1 ≤ clicks.foldl (fun _ star => star) r ∧
      clicks.foldl (fun _ star => star) r ≤ 5 := by
  induction clicks generalizing r with
  | nil => exact hr
  | cons c cs ih =>
    have hcs : ∀ x ∈ cs, x ∈ starValues := fun x hx => h x (List.mem_cons_of_mem _ hx)
    have hc : 1 ≤ c ∧ c ≤ 5 := by
      have hm := h c (List.mem_cons_self _ _)
      simp [starValues] at hm
      omega
    simpa [List.foldl_cons] using ih c hcs hc

/-- C9 (amended): the review form can only produce ratings in the range
1 to 5, because the star widget offers exactly the stars 1 to 5 and the
initial rating is 5; the submission then stores that rating unvalidated. -/
theorem C9_ui_rating_in_range (clicks : List Nat)
    (h : ∀ c ∈ clicks, c ∈ starValues) (uid : Uid) (book text : String)
    (reviews : List Review) (hb : book ≠ "") :
    1 ≤ ratingAfter clicks ∧ ratingAfter clicks ≤ 5 ∧
      (handleSubmit (some uid) book (ratingAfter clicks) text reviews).reviews =
        reviews ++ [⟨book, uid, ratingAfter clicks,
          if trimStr text == "" then none else some (trimStr text)⟩] := by
  have hrange := ratingFold_mem_range clicks 5 h (by omega)
  have hg : (book == "") = false := beq_eq_false_iff_ne.mpr hb
  exact ⟨hrange.1, hrange.2, by simp [handleSubmit, hg]⟩

/-- C9 amended claim at a concrete input: clicks on stars 3 then 1 leave the
rating at 1, and the submission stores it. -/
theorem C9_witness :
    ([3, 1].all fun c => starValues.contains c) = true ∧
      ("book-1" : String) ≠ "" ∧
      1 ≤ ratingAfter [3, 1] ∧ ratingAfter [3, 1] ≤ 5 ∧
      (handleSubmit (some "u1") "book-1" (ratingAfter [3, 1]) "good" []).reviews =
        [⟨"book-1", "u1", ratingAfter [3, 1], some "good"⟩] := by
  have h := C9_ui_rating_in_range [3, 1] (by decide) "u1" "book-1" "good" []
    (by decide)
  exact ⟨by decide, by decide, h.1, h.2.1, h.2.2⟩

/-! ### Message compose (MessageModal.tsx, claim C10) -/

/-- RLS select on profiles (migration 20251108): policy "Users can view their
own profile" OR policy "Admins and teachers can view all profiles". -/
def canSelectProfile (store : List RoleRow) (uid : Uid) (p : Profile) : Bool :=
  uid == p.user_id || has_role store uid "admin" || has_role store uid "teacher"

/-- The profile rows visible to an actor through RLS. -/
def visibleProfiles (store : List RoleRow) (profiles : List Profile)
    (uid : Uid) : List Profile :=
  profiles.filter (canSelectProfile store uid)

/-- PostgREST .single(): exactly one row, any other cardinality is an error
(modelled as none). -/
def singleRow (rows : List Profile) : Option Profile :=
  match rows with
  | [p] => some p
  | _ => none

/-- The recipient lookup in MessageModal.handleSend: select from profiles
where email equals the trimmed, lower-cased input, run through RLS and
.single(). -/
def lookupRecipient (store : List RoleRow) (profiles : List Profile)
    (uid : Uid) (recipientEmail : String) : Option Profile :=
  singleRow ((visibleProfiles store profiles uid).filter
    fun p => p.email == lowerStr (trimStr recipientEmail))

/-- Outcome of one MessageModal.handleSend invocation. -/
structure SendResult where
  messages : List Message
  ok : Bool
deriving DecidableEq, Repr

/-- MessageModal.handleSend: reject empty required fields; resolve the
recipient by email; reject an unknown recipient; reject, before any insert,
a resolved recipient equal to the current user; otherwise insert the
message. -/
def handleSend (store : List RoleRow) (profiles : List Profile)
    (messages : List Message) (user : Option Uid)
    (recipientEmail subject content selectedBook : String) : SendResult :=
  if trimStr recipientEmail == "" || trimStr subject == "" || trimStr content == "" then
    ⟨messages, false⟩
  else
    match user with
    | none => ⟨messages, false⟩
    | some uid =>
      match lookupRecipient store profiles uid recipientEmail with
      | none => ⟨messages, false⟩
      | some p =>
        if p.user_id == uid then
          ⟨messages, false⟩
        else
          ⟨messages ++ [⟨uid, p.user_id,
            (if selectedBook == "" then none else some selectedBook),
            trimStr subject, trimStr content, false⟩], true⟩

/-- C10: when the resolved recipient of a compose attempt is the current
user, the send is rejected with no message inserted; consequently every
message the dialog ever adds has a sender distinct from its recipient. -/
theorem C10_no_self_message (store : List RoleRow) (profiles : List Profile)
    (messages : List Message) (uid : Uid)
    (recipientEmail subject content selectedBook : String) :
    (∀ p, lookupRecipient store profiles uid recipientEmail = some p →
        p.user_id = uid →
        handleSend store profiles messages (some uid) recipientEmail subject
          content selectedBook = ⟨messages, false⟩) ∧
      (∀ m ∈ (handleSend store profiles messages (some uid) recipientEmail
          subject content selectedBook).messages,
        m ∈ messages ∨ m.sender_id ≠ m.recipient_id) := by
  constructor
  · intro p hp hpe
    simp only [handleSend]
    split
    · rfl
    · rw [hp]
      simp [hpe]
  · intro m hm
    simp only [handleSend] at hm
    split at hm
    · exact Or.inl hm
    · cases hlk : lookupRecipient store profiles uid recipientEmail with
      | none =>
        rw [hlk] at hm
        exact Or.inl hm
      | some p =>
        rw [hlk] at hm
        dsimp only at hm
        by_cases hpe : (p.user_id == uid) = true
        · rw [if_pos hpe] at hm
          exact Or.inl hm
        · rw [if_neg hpe] at hm
          simp only [List.mem_append, List.mem_singleton] at hm
          rcases hm with hmem | hmeq
          · exact Or.inl hmem
          · right
            subst hmeq
            simp only [beq_iff_eq] at hpe
            exact fun hcontra => hpe hcontra.symm

/-- A profile for the sender. -/
def profAnn : Profile := ⟨"u1", "Ann", "ann@example.com", none, none⟩

/-- A profile for a second user. -/
def profBob : Profile := ⟨"u2", "Bob", "bob@example.com", none, none⟩

/-- A role store making u1 a teacher, so that u1 can resolve other users by
email. -/
def rolesW : List RoleRow := [⟨"u1", "teacher"⟩]

/-- The message a successful concrete send inserts. -/
def msgW : Message := ⟨"u1", "u2", none, "hi", "hello", false⟩

/-- C10 at concrete inputs: u1 addressing a message to u1's own email is
rejected with nothing inserted, and the message of a successful concrete send
has distinct sender and recipient. -/
theorem C10_witness :
    lookupRecipient [] [profAnn] "u1" "ann@example.com" = some profAnn ∧
      profAnn.user_id = "u1" ∧
      handleSend [] [profAnn] [] (some "u1") "ann@example.com" "hi" "hello" "" =
        ⟨[], false⟩ ∧
      msgW ∈ (handleSend rolesW [profAnn, profBob] [] (some "u1")
        "bob@example.com" "hi" "hello" "").messages ∧
      msgW.sender_id ≠ msgW.recipient_id := by
  refine ⟨by decide, rfl, ?_, by decide, ?_⟩
  · exact (C10_no_self_message [] [profAnn] [] "u1" "ann@example.com" "hi"
      "hello" "").1 profAnn (by decide) rfl
  · have h := (C10_no_self_message rolesW [profAnn, profBob] [] "u1"
      "bob@example.com" "hi" "hello" "").2 msgW (by decide)
    exact h.resolve_left (by decide)

end ShelfSync
